import Mathlib

/-!
Shallow embedding of net/devif/ipv6_forward.c (NuttX), the IPv6
packet-forwarding decision engine.

Preprocessor configuration symbols (CONFIG_NETDEV_MULTINIC,
CONFIG_NET_6LOWPAN, CONFIG_NET_MULTILINK, CONFIG_NET_TCP, CONFIG_NET_UDP,
CONFIG_NET_ICMPv6, CONFIG_NET_STATISTICS) are modelled as runtime booleans
of a Config record, so one Lean function covers every compilable build.
Machine integers are Nat / Int with explicit reductions where the C code
can wrap; the packet is a byte function Nat to Nat indexed from the start
of the IPv6 header; device and allocator state are explicit records.
-/

namespace Ipv6Fwd

/-- errno values used by the source (NuttX numbering; returned negated). -/
def ENOMEM : Int := 12

def ENOSYS : Int := 38

def EPROTONOSUPPORT : Int := 93

def EPFNOSUPPORT : Int := 96

def ENETUNREACH : Int := 101

/-- OK is 0 in the NuttX sources. -/
def OK : Int := 0

/-- transport protocol numbers from the IPv6 next-header field. -/
def IP_PROTO_TCP : Nat := 6

def IP_PROTO_UDP : Nat := 17

def IP_PROTO_ICMP6 : Nat := 58

/-- fixed network-layer header length in bytes (struct ipv6_hdr_s). -/
def IPv6_HDRLEN : Nat := 40

def UDP_HDRLEN : Nat := 8

def ICMPv6_HDRLEN : Nat := 4

/-- byte offset of the tcpoffset field inside struct tcp_hdr_s
(srcport 2 + destport 2 + seqno 4 + ackno 4). -/
def TCPOFFSET_BYTE : Nat := 12

/-- link-layer type tag for IEEE 802.15.4 devices; only identity
comparisons against this tag occur in the source. -/
def NET_LL_IEEE802154 : Nat := 4

/-- payload capacity in bytes of one IOB (CONFIG_IOB_BUFSIZE default). -/
def IOB_BUFSIZE : Nat := 196

/-- build configuration: one boolean per preprocessor symbol the source
branches on. -/
structure Config where
  multinic : Bool
  sixlowpan : Bool
  multilink : Bool
  netTcp : Bool
  netUdp : Bool
  netIcmpv6 : Bool
  statistics : Bool
deriving DecidableEq, Repr

/-- a network device: identity (pointer identity in the source) and
link-layer type (d_lltype). -/
structure Device where
  id : Nat
  lltype : Nat
deriving DecidableEq, Repr

/-- the drop counters of g_netstats touched by this file. -/
structure NetStats where
  ipv6Drop : Nat
  tcpDrop : Nat
  udpDrop : Nat
  icmpv6Drop : Nat
deriving DecidableEq, Repr

/-- state of the IOB pool: free IOBs and currently allocated IOBs. -/
structure IobState where
  avail : Nat
  outstanding : Nat
deriving DecidableEq, Repr

/-- observable collaborator calls made during one forwarding decision. -/
inductive Ev where
  | evTryalloc (ok : Bool)
  | evTrycopyin (size : Nat) (ok : Bool)
  | evFreeChain (chainLen : Nat)
  | evDropstats
  | evSixlowpanTcpSend
  | evSixlowpanUdpSend
  | evTcpForward (chainLen : Nat)
  | evDevForward (chainLen : Nat)
deriving DecidableEq, Repr

/-- mutable state threaded through one call of ipv6_forward: the receive
length dev.d_len, the drop counters and the IOB pool. -/
structure FwdState where
  d_len : Nat
  stats : NetStats
  iobs : IobState
deriving DecidableEq, Repr

/-- result of one call of ipv6_forward: return value, final receive
length, final counters, final pool state, and the trace of collaborator
calls. -/
structure FwdResult where
  ret : Int
  d_len : Nat
  stats : NetStats
  iobs : IobState
  trace : List Ev
deriving DecidableEq, Repr

/-- Header Classifier, ipv6_hdrsize: size of the IPv6 header plus the
following transport header.  For TCP the source computes the header
pointer as a uintptr_t pointer plus IPv6_HDRLEN, which advances by
IPv6_HDRLEN * sizeof(uintptr_t) bytes, so the tcpoffset byte is read at
index IPv6_HDRLEN * ptrSize + TCPOFFSET_BYTE of the packet; ptrSize is
sizeof(uintptr_t) on the platform. -/
def ipv6_hdrsize (cfg : Config) (ptrSize : Nat) (pkt : Nat → Nat)
    (proto : Nat) : Int :=
  if cfg.netTcp = true ∧ proto = IP_PROTO_TCP then
    ((IPv6_HDRLEN + pkt (IPv6_HDRLEN * ptrSize + TCPOFFSET_BYTE) % 256 / 16 * 4 : Nat) : Int)
  else if cfg.netUdp = true ∧ proto = IP_PROTO_UDP then
    ((IPv6_HDRLEN + UDP_HDRLEN : Nat) : Int)
  else if cfg.netIcmpv6 = true ∧ proto = IP_PROTO_ICMP6 then
    ((IPv6_HDRLEN + ICMPv6_HDRLEN : Nat) : Int)
  else
    -EPROTONOSUPPORT

/-- guard of the Link Adaptation Hook: with CONFIG_NET_MULTILINK the hook
applies when the receive length is positive and the egress device is an
IEEE 802.15.4 device; without it, whenever the receive length is
positive. -/
def conversionApplies (cfg : Config) (d_len : Nat) (fwdLltype : Nat) : Bool :=
  if cfg.multilink then
    decide (0 < d_len) && decide (fwdLltype = NET_LL_IEEE802154)
  else
    decide (0 < d_len)

/-- Link Adaptation Hook, ipv6_packet_conversion: returns the C return
value, the new receive length, the new counters and the trace.  When the
guard holds it dispatches TCP to sixlowpan_tcp_send and UDP to
sixlowpan_udp_send, otherwise it counts an ipv6 drop; in all three cases
it zeroes the receive length and returns OK.  When the guard fails it
returns -EPFNOSUPPORT and changes nothing. -/
def ipv6_packet_conversion (cfg : Config) (d_len : Nat) (fwdLltype : Nat)
    (proto : Nat) (stats : NetStats) : Int × Nat × NetStats × List Ev :=
  if conversionApplies cfg d_len fwdLltype then
    if cfg.netTcp = true ∧ proto = IP_PROTO_TCP then
      (OK, 0, stats, [Ev.evSixlowpanTcpSend])
    else if cfg.netUdp = true ∧ proto = IP_PROTO_UDP then
      (OK, 0, stats, [Ev.evSixlowpanUdpSend])
    else
      (OK, 0,
       if cfg.statistics then
         { stats with ipv6Drop := stats.ipv6Drop + 1 }
       else stats,
       [])
  else
    (-EPFNOSUPPORT, d_len, stats, [])

/-- Drop Accountant, ipv6_dropstats: under CONFIG_NET_STATISTICS the
source increments the icmpv6, udp, tcp and ipv6 drop counters
unconditionally (the body is missing two semicolons in the source text;
the four increments written there are modelled). -/
def ipv6_dropstats (cfg : Config) (stats : NetStats) : NetStats :=
  if cfg.statistics then
    { ipv6Drop := stats.ipv6Drop + 1, tcpDrop := stats.tcpDrop + 1,
      udpDrop := stats.udpDrop + 1, icmpv6Drop := stats.icmpv6Drop + 1 }
  else
    stats

/-- Modelled from the spec: iob_tryalloc, the non-blocking allocation of
one buffer-chain head (the allocator is a collaborator outside this
file); it succeeds exactly when a free IOB exists and never waits. -/
def iob_tryalloc (st : IobState) : Option IobState :=
  if 0 < st.avail then some ⟨st.avail - 1, st.outstanding + 1⟩ else none

/-- number of IOBs needed to hold size payload bytes. -/
def iobsNeeded (size : Nat) : Nat := (size + IOB_BUFSIZE - 1) / IOB_BUFSIZE

/-- Modelled from the spec: iob_trycopyin, the non-blocking copy of the
payload into a chain whose head is already allocated; it extends the
chain without waiting and fails when the pool runs out mid-copy, leaving
the partially built chain to the caller.  Returns success flag, pool
state and chain length. -/
def iob_trycopyin (st : IobState) (size : Nat) : Bool × IobState × Nat :=
  if iobsNeeded size - 1 ≤ st.avail then
    (true, ⟨st.avail - (iobsNeeded size - 1), st.outstanding + (iobsNeeded size - 1)⟩,
     iobsNeeded size)
  else
    (false, ⟨0, st.outstanding + st.avail⟩, 1 + st.avail)

/-- Modelled from the spec: iob_free_chain releases a whole chain back to
the pool; safe on a null (length zero) chain. -/
def iob_free_chain (st : IobState) (chainLen : Nat) : IobState :=
  ⟨st.avail + chainLen, st.outstanding - chainLen⟩

/-- Buffer Stager portion of ipv6_forward: for positive payload size, try
to allocate the chain head and copy the payload in; for zero payload
size, no allocation and a null chain.  Returns success flag, pool state,
chain length and trace; on failure the chain is not yet freed (the caller
frees it at errout_with_iob). -/
def stagePayload (st : IobState) (paysize : Nat) : Bool × IobState × Nat × List Ev :=
  if 0 < paysize then
    match iob_tryalloc st with
    | none => (false, st, 0, [Ev.evTryalloc false])
    | some st1 =>
      match iob_trycopyin st1 paysize with
      | (ok, st2, chainLen) =>
        (ok, st2, chainLen, [Ev.evTryalloc true, Ev.evTrycopyin paysize ok])
  else
    (true, st, 0, [])

/-- Modelled from the spec: tcp_ipv6_forward, the stream-protocol
forwarding entry point, lives outside this file; the spec requires both
cross-interface forwarding paths to report UnsupportedForwardingPath
until link-address resolution exists. -/
def tcp_ipv6_forward : Int := -ENOSYS

/-- ipv6_dev_forward: the generic (UDP or ICMPv6) cross-interface
forwarding path of the source; its body is a stub that warns and returns
-ENOSYS. -/
def ipv6_dev_forward : Int := -ENOSYS

/-- Forward Dispatcher: TCP packets go to tcp_ipv6_forward, everything
else to ipv6_dev_forward, passing the staged chain. -/
def forwardDispatch (proto : Nat) (chainLen : Nat) : Int × List Ev :=
  if proto = IP_PROTO_TCP then
    (tcp_ipv6_forward, [Ev.evTcpForward chainLen])
  else
    (ipv6_dev_forward, [Ev.evDevForward chainLen])

/-- payload size exactly as the C code computes it: paysize is an
unsigned int, d_len is promoted and hdrsize subtracted in int, and the
conversion back to unsigned int reduces mod 2 ^ uintBits, the bit width
of unsigned int on the platform. -/
def paysizeOf (cfg : Config) (ptrSize uintBits : Nat) (pkt : Nat → Nat)
    (proto : Nat) (d_len : Nat) : Nat :=
  (((d_len : Int) - ipv6_hdrsize cfg ptrSize pkt proto) %
    ((2 : Int) ^ uintBits)).toNat

/-- cross-interface branch of ipv6_forward (fwddev differs from dev,
CONFIG_NETDEV_MULTINIC): try the Link Adaptation Hook; if it does not
apply, classify the header, compute paysize = d_len - hdrsize as the C
unsigned subtraction, stage the payload, dispatch, and on any failure
fall through errout_with_iob and the drop label. -/
def forwardCross (cfg : Config) (ptrSize uintBits : Nat) (fwd : Device)
    (pkt : Nat → Nat) (proto : Nat) (st : FwdState) : FwdResult :=
  let conv := ipv6_packet_conversion cfg st.d_len fwd.lltype proto st.stats
  if 0 ≤ conv.1 then
    ⟨OK, conv.2.1, conv.2.2.1, st.iobs, conv.2.2.2⟩
  else
    let hdrsize := ipv6_hdrsize cfg ptrSize pkt proto
    if hdrsize < 0 then
      ⟨-ENOSYS, 0, ipv6_dropstats cfg conv.2.2.1, st.iobs,
       conv.2.2.2 ++ [Ev.evDropstats]⟩
    else
      let paysize := paysizeOf cfg ptrSize uintBits pkt proto st.d_len
      let staged := stagePayload st.iobs paysize
      if staged.1 then
        let disp := forwardDispatch proto staged.2.2.1
        if 0 ≤ disp.1 then
          ⟨OK, 0, conv.2.2.1, staged.2.1, conv.2.2.2 ++ staged.2.2.2 ++ disp.2⟩
        else
          ⟨-ENOSYS, 0, ipv6_dropstats cfg conv.2.2.1,
           iob_free_chain staged.2.1 staged.2.2.1,
           conv.2.2.2 ++ staged.2.2.2 ++ disp.2 ++
             [Ev.evFreeChain staged.2.2.1, Ev.evDropstats]⟩
      else
        ⟨-ENOSYS, 0, ipv6_dropstats cfg conv.2.2.1,
         iob_free_chain staged.2.1 staged.2.2.1,
         conv.2.2.2 ++ staged.2.2.2 ++
           [Ev.evFreeChain staged.2.2.1, Ev.evDropstats]⟩

/-- same-interface / single-interface branch of ipv6_forward: with
CONFIG_NET_6LOWPAN the Link Adaptation Hook is tried on the ingress
device; if it does not apply the source returns -ENOSYS (the generic
passthrough is an acknowledged unimplemented gap), otherwise it falls
through to return OK.  Without CONFIG_NET_6LOWPAN the branch returns
-ENOSYS immediately. -/
def forwardSame (cfg : Config) (dev : Device) (proto : Nat) (st : FwdState) : FwdResult :=
  if cfg.sixlowpan then
    let conv := ipv6_packet_conversion cfg st.d_len dev.lltype proto st.stats
    if conv.1 < 0 then
      ⟨-ENOSYS, conv.2.1, conv.2.2.1, st.iobs, conv.2.2.2⟩
    else
      ⟨OK, conv.2.1, conv.2.2.1, st.iobs, conv.2.2.2⟩
  else
    ⟨-ENOSYS, st.d_len, st.stats, st.iobs, []⟩

/-- ipv6_forward: the routing lookup result (netdev_findby_ipv6addr, a
collaborator) enters as fwddev; no route returns -ENETUNREACH with
nothing changed; otherwise the cross-interface or the same-interface
branch runs exactly as in the source. -/
def ipv6_forward (cfg : Config) (ptrSize uintBits : Nat) (dev : Device)
    (pkt : Nat → Nat) (proto : Nat) (fwddev : Option Device)
    (st : FwdState) : FwdResult :=
  match fwddev with
  | none => ⟨-ENETUNREACH, st.d_len, st.stats, st.iobs, []⟩
  | some fwd =>
    if cfg.multinic = true ∧ fwd.id ≠ dev.id then
      forwardCross cfg ptrSize uintBits fwd pkt proto st
    else
      forwardSame cfg dev proto st

/-- trace predicate: is the event a chain release. -/
def isFreeChain : Ev → Bool
  | Ev.evFreeChain _ => true
  | _ => false

/-- trace predicate: is the event a drop-accounting call. -/
def isDropstats : Ev → Bool
  | Ev.evDropstats => true
  | _ => false

/-- trace predicate: is the event a chain-head allocation attempt. -/
def isTryalloc : Ev → Bool
  | Ev.evTryalloc _ => true
  | _ => false

/-- trace predicate: is the event a payload copy-in attempt. -/
def isTrycopyin : Ev → Bool
  | Ev.evTrycopyin _ _ => true
  | _ => false

/-- trace predicate: is the event a copy-in attempt of the given size. -/
def isTrycopyinOf (size : Nat) : Ev → Bool
  | Ev.evTrycopyin s _ => decide (s = size)
  | _ => false

/-- trace predicate: is the event a hand-off to one of the two
protocol-specific forwarding paths. -/
def isDispatch : Ev → Bool
  | Ev.evTcpForward _ => true
  | Ev.evDevForward _ => true
  | _ => false

/-! Concrete fixtures for the closed evaluations. -/

/-- full-featured build configuration: multiple interfaces, 6LoWPAN,
multilink, TCP, UDP, ICMPv6 and statistics all enabled. -/
def cfgFull : Config := ⟨true, true, true, true, true, true, true⟩

/-- single-interface build configuration: 6LoWPAN and multilink present,
UDP and statistics on, no TCP and no ICMPv6. -/
def cfgSingle : Config := ⟨false, true, true, false, true, false, true⟩

/-- a packet whose byte at index 52 = IPv6_HDRLEN + TCPOFFSET_BYTE (the
position of the tcpoffset field when the transport header immediately
follows the network header) is 0x50, i.e. word count 5; all other bytes
are zero. -/
def pktA : Nat → Nat := fun n => if n = 52 then 80 else 0

/-- a packet whose byte at index 172 = IPv6_HDRLEN * 4 + TCPOFFSET_BYTE
is 0x50; all other bytes are zero. -/
def pktB : Nat → Nat := fun n => if n = 172 then 80 else 0

/-- state fixture: receive length 9, counters zero, pool 4 free and 1
outstanding. -/
def stC2 : FwdState := ⟨9, ⟨0, 0, 0, 0⟩, ⟨4, 1⟩⟩

/-- state fixture: receive length 7, counters zero, pool 3 free and 2
outstanding. -/
def stC3 : FwdState := ⟨7, ⟨0, 0, 0, 0⟩, ⟨3, 2⟩⟩

/-- state fixture for the allocation-failure scenario: receive length 60
(UDP header size 48, so payload 12), counters zero, pool empty with 5
IOBs outstanding. -/
def stC4 : FwdState := ⟨60, ⟨0, 0, 0, 0⟩, ⟨0, 5⟩⟩

/-- state fixture for the dispatch scenario: receive length 60, counters
zero, pool 5 free and none outstanding. -/
def stC5 : FwdState := ⟨60, ⟨0, 0, 0, 0⟩, ⟨5, 0⟩⟩

/-- state fixture for the transcoding-drop scenario: receive length 20,
counters zero, pool 2 free and none outstanding. -/
def stC6 : FwdState := ⟨20, ⟨0, 0, 0, 0⟩, ⟨2, 0⟩⟩

/-- state fixture for the passthrough scenario: receive length 30,
counters zero, pool 3 free and none outstanding. -/
def stC7 : FwdState := ⟨30, ⟨0, 0, 0, 0⟩, ⟨3, 0⟩⟩

/-- state fixture for the zero-payload scenario: receive length exactly
the UDP header size 48, counters zero, pool 3 free and none
outstanding. -/
def stC8 : FwdState := ⟨48, ⟨0, 0, 0, 0⟩, ⟨3, 0⟩⟩

/-- state fixture for the masked-errno scenario: receive length 10 (too
short even for the headers), counters zero, pool empty with 1 IOB
outstanding. -/
def stC9 : FwdState := ⟨10, ⟨0, 0, 0, 0⟩, ⟨0, 1⟩⟩

/-- state fixture for the truncated-frame scenario: receive length 40,
one byte short of nothing beyond the network header, counters zero, pool
1 free and none outstanding. -/
def stC10 : FwdState := ⟨40, ⟨0, 0, 0, 0⟩, ⟨1, 0⟩⟩

/-! Helper lemmas shared by the claim theorems. -/

theorem dispatch_fails (proto chainLen : Nat) :
    (forwardDispatch proto chainLen).1 = -ENOSYS := by
  unfold forwardDispatch
  split <;> rfl

theorem conversion_fail (cfg : Config) (d l proto : Nat) (s : NetStats)
    (h : conversionApplies cfg d l = false) :
    ipv6_packet_conversion cfg d l proto s = (-EPFNOSUPPORT, d, s, []) := by
  unfold ipv6_packet_conversion
  simp [h]

theorem conversion_ok_fst (cfg : Config) (d l proto : Nat) (s : NetStats)
    (h : conversionApplies cfg d l = true) :
    (ipv6_packet_conversion cfg d l proto s).1 = 0 ∧
      (ipv6_packet_conversion cfg d l proto s).2.1 = 0 := by
  unfold ipv6_packet_conversion
  simp only [h, if_true]
  split_ifs <;> simp [OK]

theorem iobsNeeded_pos {p : Nat} (h : 0 < p) : 1 ≤ iobsNeeded p := by
  unfold iobsNeeded IOB_BUFSIZE
  omega

theorem stage_success (st : IobState) (p : Nat) (h : iobsNeeded p ≤ st.avail) :
    stagePayload st p =
      (true, ⟨st.avail - iobsNeeded p, st.outstanding + iobsNeeded p⟩,
       iobsNeeded p,
       if 0 < p then [Ev.evTryalloc true, Ev.evTrycopyin p true] else []) := by
  obtain ⟨a, o⟩ := st
  simp only [stagePayload, iob_tryalloc, iob_trycopyin]
  by_cases hp : 0 < p
  · have h1 : 1 ≤ iobsNeeded p := iobsNeeded_pos hp
    simp only [IobState.avail] at h
    have ha : 0 < a := by omega
    simp only [hp, if_true, ha]
    have hc : iobsNeeded p - 1 ≤ a - 1 := by omega
    simp only [hc, if_true]
    refine Prod.ext rfl (Prod.ext ?_ (Prod.ext rfl rfl))
    show (⟨a - 1 - (iobsNeeded p - 1), o + 1 + (iobsNeeded p - 1)⟩ : IobState) = _
    have h2 : a - 1 - (iobsNeeded p - 1) = a - iobsNeeded p := by omega
    have h3 : o + 1 + (iobsNeeded p - 1) = o + iobsNeeded p := by omega
    rw [h2, h3]
  · have hp0 : p = 0 := by omega
    subst hp0
    simp [iobsNeeded, IOB_BUFSIZE]

theorem stage_restore (st : IobState) (p : Nat) :
    iob_free_chain (stagePayload st p).2.1 (stagePayload st p).2.2.1 = st := by
  obtain ⟨a, o⟩ := st
  simp only [stagePayload, iob_tryalloc, iob_trycopyin, iob_free_chain]
  by_cases hp : 0 < p
  · have h1 : 1 ≤ iobsNeeded p := iobsNeeded_pos hp
    by_cases ha : 0 < a
    · simp only [hp, if_true, ha]
      by_cases hc : iobsNeeded p - 1 ≤ a - 1
      · simp only [hc, if_true]
        show (⟨a - 1 - (iobsNeeded p - 1) + iobsNeeded p,
               o + 1 + (iobsNeeded p - 1) - iobsNeeded p⟩ : IobState) = _
        have h2 : a - 1 - (iobsNeeded p - 1) + iobsNeeded p = a := by omega
        have h3 : o + 1 + (iobsNeeded p - 1) - iobsNeeded p = o := by omega
        rw [h2, h3]
      · simp only [hc, if_false]
        show (⟨0 + (1 + (a - 1)), o + 1 + (a - 1) - (1 + (a - 1))⟩ : IobState) = _
        have h2 : 0 + (1 + (a - 1)) = a := by omega
        have h3 : o + 1 + (a - 1) - (1 + (a - 1)) = o := by omega
        rw [h2, h3]
    · simp only [hp, if_true, ha]
      rfl
  · simp only [hp, if_false]
    rfl

theorem forwardCross_convfail (cfg : Config) (ptrSize uintBits : Nat)
    (fwd : Device) (pkt : Nat → Nat) (proto : Nat) (st : FwdState)
    (h : conversionApplies cfg st.d_len fwd.lltype = false) :
    (forwardCross cfg ptrSize uintBits fwd pkt proto st).ret = -ENOSYS ∧
    (forwardCross cfg ptrSize uintBits fwd pkt proto st).d_len = 0 ∧
    (forwardCross cfg ptrSize uintBits fwd pkt proto st).stats =
      ipv6_dropstats cfg st.stats ∧
    (forwardCross cfg ptrSize uintBits fwd pkt proto st).iobs = st.iobs ∧
    Ev.evDropstats ∈ (forwardCross cfg ptrSize uintBits fwd pkt proto st).trace := by
  simp only [forwardCross, conversion_fail cfg st.d_len fwd.lltype proto st.stats h]
  have hpf : ¬ ((0 : Int) ≤ -EPFNOSUPPORT) := by norm_num [EPFNOSUPPORT]
  simp only [hpf, if_false]
  split_ifs with h1 h2 h3
  · simp
  · rw [dispatch_fails] at h3
    exact absurd h3 (by norm_num [ENOSYS])
  · simp [stage_restore]
  · simp [stage_restore]

theorem int_emod_neg (a n : Int) (_hn : 0 < n) (h1 : -n ≤ a) (h2 : a < 0) :
    a % n = a + n := by
  have h3 : (a + n) % n = a % n := by
    have h4 : (a + n * 1) % n = a % n := Int.add_mul_emod_self_left a n 1
    rwa [mul_one] at h4
  rw [← h3, Int.emod_eq_of_lt (by omega) (by omega)]

theorem forwardCross_convok (cfg : Config) (ptrSize uintBits : Nat)
    (fwd : Device) (pkt : Nat → Nat) (proto : Nat) (st : FwdState)
    (h : conversionApplies cfg st.d_len fwd.lltype = true) :
    (forwardCross cfg ptrSize uintBits fwd pkt proto st).ret = 0 ∧
    (forwardCross cfg ptrSize uintBits fwd pkt proto st).d_len = 0 ∧
    (forwardCross cfg ptrSize uintBits fwd pkt proto st).iobs = st.iobs := by
  have hc := conversion_ok_fst cfg st.d_len fwd.lltype proto st.stats h
  simp only [forwardCross, hc.1, hc.2]
  norm_num [OK]

theorem forwardSame_convfail (cfg : Config) (dev : Device) (proto : Nat)
    (st : FwdState) (hs : cfg.sixlowpan = true)
    (h : conversionApplies cfg st.d_len dev.lltype = false) :
    forwardSame cfg dev proto st = ⟨-ENOSYS, st.d_len, st.stats, st.iobs, []⟩ := by
  simp only [forwardSame, hs, if_true,
    conversion_fail cfg st.d_len dev.lltype proto st.stats h]
  rw [if_pos (by norm_num [EPFNOSUPPORT])]

theorem forwardSame_convok (cfg : Config) (dev : Device) (proto : Nat)
    (st : FwdState) (hs : cfg.sixlowpan = true)
    (h : conversionApplies cfg st.d_len dev.lltype = true) :
    (forwardSame cfg dev proto st).ret = 0 ∧
    (forwardSame cfg dev proto st).d_len = 0 ∧
    (forwardSame cfg dev proto st).iobs = st.iobs := by
  have hc := conversion_ok_fst cfg st.d_len dev.lltype proto st.stats h
  simp only [forwardSame, hs, if_true, hc.1, hc.2]
  norm_num [OK]

theorem stage_alloc_fail (st : IobState) (p : Nat) (hp : 0 < p)
    (ha : st.avail = 0) :
    stagePayload st p = (false, st, 0, [Ev.evTryalloc false]) := by
  simp only [stagePayload, iob_tryalloc, hp, if_true, ha]
  simp

theorem stage_attempt (st : IobState) (p : Nat) (hp : 0 < p)
    (ha : 0 < st.avail) :
    ∃ b st2 cl, stagePayload st p =
      (b, st2, cl, [Ev.evTryalloc true, Ev.evTrycopyin p b]) := by
  simp only [stagePayload, iob_tryalloc, hp, if_true, ha]
  exact ⟨_, _, _, rfl⟩

theorem conversion_unsupported (cfg : Config) (d l proto : Nat) (s : NetStats)
    (h : conversionApplies cfg d l = true)
    (ht : ¬(cfg.netTcp = true ∧ proto = IP_PROTO_TCP))
    (hu : ¬(cfg.netUdp = true ∧ proto = IP_PROTO_UDP)) :
    ipv6_packet_conversion cfg d l proto s =
      (OK, 0,
       if cfg.statistics then { s with ipv6Drop := s.ipv6Drop + 1 } else s,
       []) := by
  simp only [ipv6_packet_conversion, h, if_true]
  rw [if_neg ht, if_neg hu]

theorem forwardCross_stage_drop (cfg : Config) (ptrSize uintBits : Nat)
    (fwd : Device) (pkt : Nat → Nat) (proto : Nat) (st : FwdState)
    (hc : conversionApplies cfg st.d_len fwd.lltype = false)
    (hh : 0 ≤ ipv6_hdrsize cfg ptrSize pkt proto) :
    forwardCross cfg ptrSize uintBits fwd pkt proto st =
      ⟨-ENOSYS, 0, ipv6_dropstats cfg st.stats,
       iob_free_chain
         (stagePayload st.iobs (paysizeOf cfg ptrSize uintBits pkt proto st.d_len)).2.1
         (stagePayload st.iobs (paysizeOf cfg ptrSize uintBits pkt proto st.d_len)).2.2.1,
       (stagePayload st.iobs (paysizeOf cfg ptrSize uintBits pkt proto st.d_len)).2.2.2 ++
         (if (stagePayload st.iobs (paysizeOf cfg ptrSize uintBits pkt proto st.d_len)).1 then
            (forwardDispatch proto
              (stagePayload st.iobs (paysizeOf cfg ptrSize uintBits pkt proto st.d_len)).2.2.1).2
          else []) ++
         [Ev.evFreeChain
            (stagePayload st.iobs (paysizeOf cfg ptrSize uintBits pkt proto st.d_len)).2.2.1,
          Ev.evDropstats]⟩ := by
  simp only [forwardCross, conversion_fail cfg st.d_len fwd.lltype proto st.stats hc]
  rw [if_neg (by norm_num [EPFNOSUPPORT])]
  rw [if_neg (by omega)]
  by_cases hstage :
      (stagePayload st.iobs (paysizeOf cfg ptrSize uintBits pkt proto st.d_len)).1 = true
  · rw [if_pos hstage, if_pos hstage,
      if_neg (by rw [dispatch_fails]; norm_num [ENOSYS])]
    simp
  · rw [if_neg hstage, if_neg hstage]
    simp

/-! Claim C1. -/

/-- C1: code bug in the Header Classifier.  The claim, like the source
documentation of ipv6_hdrsize, says the 4-bit transport-header-length
field is read from the bytes immediately following the fixed network
header, so on pktA (word count 5 stored there) the classifier should
return 40 + 4 * 5 = 60.  The source casts the header pointer to a
uintptr_t pointer before adding IPv6_HDRLEN, so with 4-byte pointers it
reads byte 40 * 4 + 12 = 172 instead of byte 52: on pktA it returns 40,
and on pktB, which stores the field at byte 172, it returns 60. -/
theorem c1_hdrsize_wrong_offset :
    ipv6_hdrsize cfgFull 4 pktA IP_PROTO_TCP = 40 ∧
    pktA (IPv6_HDRLEN + TCPOFFSET_BYTE) % 256 / 16 = 5 ∧
    ipv6_hdrsize cfgFull 4 pktA IP_PROTO_TCP ≠ ((IPv6_HDRLEN : Int) + 4 * 5) ∧
    ipv6_hdrsize cfgFull 4 pktB IP_PROTO_TCP = 60 := by
  decide

/-! Claim C3. -/

/-- C3 counterexample: when no interface serves the destination,
ipv6_forward returns -ENETUNREACH but leaves the receive length at its
old value 7 instead of zeroing it, contrary to the claim. -/
theorem c3_cex_dlen_not_zeroed :
    (ipv6_forward cfgFull 4 32 ⟨0, 0⟩ pktA IP_PROTO_UDP none stC3).ret =
      -ENETUNREACH ∧
    (ipv6_forward cfgFull 4 32 ⟨0, 0⟩ pktA IP_PROTO_UDP none stC3).d_len = 7 ∧
    (7 : Nat) ≠ 0 := by
  decide

/-- C3 (amended): for every frame whose addresses resolve to no
interface, ipv6_forward returns -ENETUNREACH, allocates no buffer chain
and calls no collaborator, and leaves the receive length, the drop
counters and the IOB pool unchanged; disposing of the frame is left to
the caller. -/
theorem c3_no_route_returns_enetunreach (cfg : Config) (ptrSize uintBits : Nat)
    (dev : Device) (pkt : Nat → Nat) (proto : Nat) (st : FwdState) :
    ipv6_forward cfg ptrSize uintBits dev pkt proto none st =
      ⟨-ENETUNREACH, st.d_len, st.stats, st.iobs, []⟩ := by
  rfl

/-! Claim C2. -/

/-- C2 counterexample: a same-interface exit (Ethernet-style device,
link adaptation not applicable) fails with -ENOSYS without passing
through the Drop Accountant: the counters stay zero and the receive
length stays 9, contrary to the claim that every failure exit increments
the counters and zeroes the receive length. -/
theorem c2_cex_failure_without_accounting :
    (ipv6_forward cfgFull 4 32 ⟨3, 0⟩ pktA IP_PROTO_UDP (some ⟨3, 0⟩) stC2).ret =
      -ENOSYS ∧
    (ipv6_forward cfgFull 4 32 ⟨3, 0⟩ pktA IP_PROTO_UDP (some ⟨3, 0⟩) stC2).d_len = 9 ∧
    (ipv6_forward cfgFull 4 32 ⟨3, 0⟩ pktA IP_PROTO_UDP (some ⟨3, 0⟩) stC2).stats.ipv6Drop = 0 := by
  decide

/-- C2 (amended): every failing return of ipv6_forward either went
through the Drop Accountant — counters incremented, receive length
zeroed, IOB pool exactly restored so no chain leaks — or is the no-route
exit or a same-interface exit, which return -ENETUNREACH or -ENOSYS and
leave the receive length, the counters and the pool untouched. -/
theorem c2_every_failure_accounted_or_untouched (cfg : Config)
    (ptrSize uintBits : Nat) (dev : Device) (pkt : Nat → Nat) (proto : Nat)
    (fwddev : Option Device) (st : FwdState)
    (h : (ipv6_forward cfg ptrSize uintBits dev pkt proto fwddev st).ret < 0) :
    ((ipv6_forward cfg ptrSize uintBits dev pkt proto fwddev st).stats =
        ipv6_dropstats cfg st.stats ∧
     (ipv6_forward cfg ptrSize uintBits dev pkt proto fwddev st).d_len = 0 ∧
     (ipv6_forward cfg ptrSize uintBits dev pkt proto fwddev st).iobs = st.iobs ∧
     Ev.evDropstats ∈
       (ipv6_forward cfg ptrSize uintBits dev pkt proto fwddev st).trace) ∨
    ((ipv6_forward cfg ptrSize uintBits dev pkt proto fwddev st).d_len = st.d_len ∧
     (ipv6_forward cfg ptrSize uintBits dev pkt proto fwddev st).stats = st.stats ∧
     (ipv6_forward cfg ptrSize uintBits dev pkt proto fwddev st).iobs = st.iobs ∧
     ((ipv6_forward cfg ptrSize uintBits dev pkt proto fwddev st).ret = -ENETUNREACH ∨
      (ipv6_forward cfg ptrSize uintBits dev pkt proto fwddev st).ret = -ENOSYS)) := by
  cases fwddev with
  | none => exact Or.inr ⟨rfl, rfl, rfl, Or.inl rfl⟩
  | some fwd =>
    simp only [ipv6_forward] at h ⊢
    by_cases hb : cfg.multinic = true ∧ fwd.id ≠ dev.id
    · rw [if_pos hb] at h ⊢
      by_cases hc : conversionApplies cfg st.d_len fwd.lltype = true
      · exact absurd h (by
          have hk := forwardCross_convok cfg ptrSize uintBits fwd pkt proto st hc
          omega)
      · have hk := forwardCross_convfail cfg ptrSize uintBits fwd pkt proto st
          (by simpa using hc)
        exact Or.inl ⟨hk.2.2.1, hk.2.1, hk.2.2.2.1, hk.2.2.2.2⟩
    · rw [if_neg hb] at h ⊢
      by_cases hs : cfg.sixlowpan = true
      · by_cases hc : conversionApplies cfg st.d_len dev.lltype = true
        · exact absurd h (by
            have hk := forwardSame_convok cfg dev proto st hs hc
            omega)
        · have hk := forwardSame_convfail cfg dev proto st hs (by simpa using hc)
          rw [hk]
          exact Or.inr ⟨rfl, rfl, rfl, Or.inr rfl⟩
      · have hs0 : cfg.sixlowpan = false := by simpa using hs
        unfold forwardSame
        rw [if_neg (by simp [hs0])]
        exact Or.inr ⟨rfl, rfl, rfl, Or.inr rfl⟩

/-- C2 witness: the amended failure-exit theorem applied at a concrete
no-route input, which lands in the untouched-state disjunct. -/
theorem c2_witness :
    (ipv6_forward cfgFull 4 32 ⟨2, 0⟩ pktA IP_PROTO_UDP none stC2).ret < 0 ∧
    (((ipv6_forward cfgFull 4 32 ⟨2, 0⟩ pktA IP_PROTO_UDP none stC2).stats =
        ipv6_dropstats cfgFull stC2.stats ∧
      (ipv6_forward cfgFull 4 32 ⟨2, 0⟩ pktA IP_PROTO_UDP none stC2).d_len = 0 ∧
      (ipv6_forward cfgFull 4 32 ⟨2, 0⟩ pktA IP_PROTO_UDP none stC2).iobs = stC2.iobs ∧
      Ev.evDropstats ∈
        (ipv6_forward cfgFull 4 32 ⟨2, 0⟩ pktA IP_PROTO_UDP none stC2).trace) ∨
     ((ipv6_forward cfgFull 4 32 ⟨2, 0⟩ pktA IP_PROTO_UDP none stC2).d_len = stC2.d_len ∧
      (ipv6_forward cfgFull 4 32 ⟨2, 0⟩ pktA IP_PROTO_UDP none stC2).stats = stC2.stats ∧
      (ipv6_forward cfgFull 4 32 ⟨2, 0⟩ pktA IP_PROTO_UDP none stC2).iobs = stC2.iobs ∧
      ((ipv6_forward cfgFull 4 32 ⟨2, 0⟩ pktA IP_PROTO_UDP none stC2).ret = -ENETUNREACH ∨
       (ipv6_forward cfgFull 4 32 ⟨2, 0⟩ pktA IP_PROTO_UDP none stC2).ret = -ENOSYS))) :=
  ⟨by decide,
   c2_every_failure_accounted_or_untouched cfgFull 4 32 ⟨2, 0⟩ pktA IP_PROTO_UDP none stC2
     (by decide)⟩

/-! Claim C4. -/

/-- C4 counterexample: with the IOB pool empty, the cross-interface
forward of a UDP packet with a 12-byte payload fails, but the value
ipv6_forward returns is -ENOSYS, not the -ENOMEM (BufferExhausted) the
claim states: the internal -ENOMEM never reaches the caller. -/
theorem c4_cex_returns_enosys_not_enomem :
    (ipv6_forward cfgFull 4 32 ⟨0, 0⟩ pktA IP_PROTO_UDP (some ⟨1, 0⟩) stC4).ret =
      -ENOSYS ∧
    (ipv6_forward cfgFull 4 32 ⟨0, 0⟩ pktA IP_PROTO_UDP (some ⟨1, 0⟩) stC4).ret ≠
      -ENOMEM := by
  decide

/-- C4 (amended): for every cross-interface attempt with nonzero payload
in which the non-blocking chain-head allocation finds no free IOB,
ipv6_forward fails without waiting and without attempting a copy; the
failure reaches the caller as -ENOSYS (the internal -ENOMEM is masked at
the shared drop exit), the receive length is zeroed, and the IOB pool —
in particular the outstanding-allocation count — equals its value before
the call: no chain is returned and no partial chain leaks. -/
theorem c4_alloc_failure_no_leak (cfg : Config) (ptrSize uintBits : Nat)
    (dev fwd : Device) (pkt : Nat → Nat) (proto : Nat) (st : FwdState)
    (hm : cfg.multinic = true) (hne : fwd.id ≠ dev.id)
    (hc : conversionApplies cfg st.d_len fwd.lltype = false)
    (hh : 0 ≤ ipv6_hdrsize cfg ptrSize pkt proto)
    (hp : 0 < paysizeOf cfg ptrSize uintBits pkt proto st.d_len)
    (ha : st.iobs.avail = 0) :
    (ipv6_forward cfg ptrSize uintBits dev pkt proto (some fwd) st).ret = -ENOSYS ∧
    (ipv6_forward cfg ptrSize uintBits dev pkt proto (some fwd) st).iobs = st.iobs ∧
    (ipv6_forward cfg ptrSize uintBits dev pkt proto (some fwd) st).d_len = 0 ∧
    Ev.evTryalloc false ∈
      (ipv6_forward cfg ptrSize uintBits dev pkt proto (some fwd) st).trace ∧
    (ipv6_forward cfg ptrSize uintBits dev pkt proto (some fwd) st).trace.filter
      isTrycopyin = [] := by
  have hfc := forwardCross_stage_drop cfg ptrSize uintBits fwd pkt proto st hc hh
  have hsp := stage_alloc_fail st.iobs _ hp ha
  simp only [ipv6_forward]
  rw [if_pos ⟨hm, hne⟩, hfc, hsp]
  refine ⟨rfl, rfl, rfl, ?_, ?_⟩
  · simp
  · simp [isTrycopyin]

/-- C4 witness: the amended theorem applied at the concrete
allocation-failure fixture. -/
theorem c4_witness :
    stC4.iobs.avail = 0 ∧
    ((ipv6_forward cfgFull 4 32 ⟨0, 0⟩ pktA IP_PROTO_UDP (some ⟨1, 0⟩) stC4).ret =
       -ENOSYS ∧
     (ipv6_forward cfgFull 4 32 ⟨0, 0⟩ pktA IP_PROTO_UDP (some ⟨1, 0⟩) stC4).iobs =
       stC4.iobs ∧
     (ipv6_forward cfgFull 4 32 ⟨0, 0⟩ pktA IP_PROTO_UDP (some ⟨1, 0⟩) stC4).d_len = 0 ∧
     Ev.evTryalloc false ∈
       (ipv6_forward cfgFull 4 32 ⟨0, 0⟩ pktA IP_PROTO_UDP (some ⟨1, 0⟩) stC4).trace ∧
     (ipv6_forward cfgFull 4 32 ⟨0, 0⟩ pktA IP_PROTO_UDP (some ⟨1, 0⟩) stC4).trace.filter
       isTrycopyin = []) :=
  ⟨rfl,
   c4_alloc_failure_no_leak cfgFull 4 32 ⟨0, 0⟩ ⟨1, 0⟩ pktA IP_PROTO_UDP stC4
     rfl (by decide) (by decide) (by decide) (by decide) rfl⟩

/-! Claim C5. -/

/-- C5: for every cross-interface attempt in which link adaptation does
not apply, the header is classified, and the pool can stage the payload,
the dispatch to the stream path (tcp_ipv6_forward) or to the generic
path (ipv6_dev_forward) fails with -ENOSYS; ipv6_forward then zeroes the
receive length, releases the staged chain exactly once, restores the IOB
pool exactly, and increments the network drop counter exactly once. -/
theorem c5_dispatch_gap_drop_once (cfg : Config) (ptrSize uintBits : Nat)
    (dev fwd : Device) (pkt : Nat → Nat) (proto : Nat) (st : FwdState)
    (hm : cfg.multinic = true) (hne : fwd.id ≠ dev.id)
    (hst : cfg.statistics = true)
    (hc : conversionApplies cfg st.d_len fwd.lltype = false)
    (hh : 0 ≤ ipv6_hdrsize cfg ptrSize pkt proto)
    (hav : iobsNeeded (paysizeOf cfg ptrSize uintBits pkt proto st.d_len) ≤
      st.iobs.avail) :
    (ipv6_forward cfg ptrSize uintBits dev pkt proto (some fwd) st).ret = -ENOSYS ∧
    (ipv6_forward cfg ptrSize uintBits dev pkt proto (some fwd) st).d_len = 0 ∧
    (ipv6_forward cfg ptrSize uintBits dev pkt proto (some fwd) st).stats.ipv6Drop =
      st.stats.ipv6Drop + 1 ∧
    ((ipv6_forward cfg ptrSize uintBits dev pkt proto (some fwd) st).trace.filter
      isFreeChain).length = 1 ∧
    ((ipv6_forward cfg ptrSize uintBits dev pkt proto (some fwd) st).trace.filter
      isDropstats).length = 1 ∧
    ((ipv6_forward cfg ptrSize uintBits dev pkt proto (some fwd) st).trace.filter
      isDispatch).length = 1 ∧
    (ipv6_forward cfg ptrSize uintBits dev pkt proto (some fwd) st).iobs = st.iobs := by
  have hfc := forwardCross_stage_drop cfg ptrSize uintBits fwd pkt proto st hc hh
  have hsp := stage_success st.iobs _ hav
  simp only [ipv6_forward]
  rw [if_pos ⟨hm, hne⟩, hfc, hsp]
  refine ⟨rfl, rfl, by simp [ipv6_dropstats, hst], ?_, ?_, ?_, ?_⟩
  · by_cases hp : 0 < paysizeOf cfg ptrSize uintBits pkt proto st.d_len
    · rw [if_pos hp]
      by_cases hproto : proto = IP_PROTO_TCP
      · simp only [forwardDispatch]
        rw [if_pos hproto]
        rfl
      · simp only [forwardDispatch]
        rw [if_neg hproto]
        rfl
    · rw [if_neg hp]
      by_cases hproto : proto = IP_PROTO_TCP
      · simp only [forwardDispatch]
        rw [if_pos hproto]
        rfl
      · simp only [forwardDispatch]
        rw [if_neg hproto]
        rfl
  · by_cases hp : 0 < paysizeOf cfg ptrSize uintBits pkt proto st.d_len
    · rw [if_pos hp]
      by_cases hproto : proto = IP_PROTO_TCP
      · simp only [forwardDispatch]
        rw [if_pos hproto]
        rfl
      · simp only [forwardDispatch]
        rw [if_neg hproto]
        rfl
    · rw [if_neg hp]
      by_cases hproto : proto = IP_PROTO_TCP
      · simp only [forwardDispatch]
        rw [if_pos hproto]
        rfl
      · simp only [forwardDispatch]
        rw [if_neg hproto]
        rfl
  · by_cases hp : 0 < paysizeOf cfg ptrSize uintBits pkt proto st.d_len
    · rw [if_pos hp]
      by_cases hproto : proto = IP_PROTO_TCP
      · simp only [forwardDispatch]
        rw [if_pos hproto]
        rfl
      · simp only [forwardDispatch]
        rw [if_neg hproto]
        rfl
    · rw [if_neg hp]
      by_cases hproto : proto = IP_PROTO_TCP
      · simp only [forwardDispatch]
        rw [if_pos hproto]
        rfl
      · simp only [forwardDispatch]
        rw [if_neg hproto]
        rfl
  · simp only [iob_free_chain]
    have h1 : st.iobs.avail -
        iobsNeeded (paysizeOf cfg ptrSize uintBits pkt proto st.d_len) +
        iobsNeeded (paysizeOf cfg ptrSize uintBits pkt proto st.d_len) =
        st.iobs.avail := by omega
    have h2 : st.iobs.outstanding +
        iobsNeeded (paysizeOf cfg ptrSize uintBits pkt proto st.d_len) -
        iobsNeeded (paysizeOf cfg ptrSize uintBits pkt proto st.d_len) =
        st.iobs.outstanding := by omega
    rw [h1, h2]

/-- C5 witness: the dispatch-gap theorem applied at a concrete
cross-interface UDP packet with a stageable 12-byte payload. -/
theorem c5_witness :
    iobsNeeded (paysizeOf cfgFull 4 32 pktA IP_PROTO_UDP stC5.d_len) ≤
      stC5.iobs.avail ∧
    ((ipv6_forward cfgFull 4 32 ⟨0, 0⟩ pktA IP_PROTO_UDP (some ⟨1, 0⟩) stC5).ret =
       -ENOSYS ∧
     (ipv6_forward cfgFull 4 32 ⟨0, 0⟩ pktA IP_PROTO_UDP (some ⟨1, 0⟩) stC5).d_len = 0 ∧
     (ipv6_forward cfgFull 4 32 ⟨0, 0⟩ pktA IP_PROTO_UDP (some ⟨1, 0⟩) stC5).stats.ipv6Drop =
       stC5.stats.ipv6Drop + 1 ∧
     ((ipv6_forward cfgFull 4 32 ⟨0, 0⟩ pktA IP_PROTO_UDP (some ⟨1, 0⟩) stC5).trace.filter
       isFreeChain).length = 1 ∧
     ((ipv6_forward cfgFull 4 32 ⟨0, 0⟩ pktA IP_PROTO_UDP (some ⟨1, 0⟩) stC5).trace.filter
       isDropstats).length = 1 ∧
     ((ipv6_forward cfgFull 4 32 ⟨0, 0⟩ pktA IP_PROTO_UDP (some ⟨1, 0⟩) stC5).trace.filter
       isDispatch).length = 1 ∧
     (ipv6_forward cfgFull 4 32 ⟨0, 0⟩ pktA IP_PROTO_UDP (some ⟨1, 0⟩) stC5).iobs =
       stC5.iobs) :=
  ⟨by decide,
   c5_dispatch_gap_drop_once cfgFull 4 32 ⟨0, 0⟩ ⟨1, 0⟩ pktA IP_PROTO_UDP stC5
     rfl (by decide) rfl (by decide) (by decide) (by decide)⟩

/-! Claim C6. -/

/-- C6: for every packet with positive receive length whose egress link
technology requires transcoding (the Link Adaptation Hook applies to
the device it inspects: the forwarding device in the cross-interface
branch, the ingress device itself otherwise) but whose transport
protocol the technology does not support (neither a configured TCP nor
a configured UDP), ipv6_forward returns success, the receive length
becomes zero, the network-layer drop counter is incremented exactly
once, the pool is untouched and no collaborator — in particular no
allocation — is ever called. -/
theorem c6_transcode_unsupported_proto (cfg : Config) (ptrSize uintBits : Nat)
    (dev fwd : Device) (pkt : Nat → Nat) (proto : Nat) (st : FwdState)
    (hsix : cfg.sixlowpan = true) (hst : cfg.statistics = true)
    (hconv : conversionApplies cfg st.d_len
      (if cfg.multinic = true ∧ fwd.id ≠ dev.id then fwd.lltype else dev.lltype) =
      true)
    (ht : ¬(cfg.netTcp = true ∧ proto = IP_PROTO_TCP))
    (hu : ¬(cfg.netUdp = true ∧ proto = IP_PROTO_UDP)) :
    (ipv6_forward cfg ptrSize uintBits dev pkt proto (some fwd) st).ret = OK ∧
    (ipv6_forward cfg ptrSize uintBits dev pkt proto (some fwd) st).d_len = 0 ∧
    (ipv6_forward cfg ptrSize uintBits dev pkt proto (some fwd) st).stats.ipv6Drop =
      st.stats.ipv6Drop + 1 ∧
    (ipv6_forward cfg ptrSize uintBits dev pkt proto (some fwd) st).iobs = st.iobs ∧
    (ipv6_forward cfg ptrSize uintBits dev pkt proto (some fwd) st).trace = [] := by
  simp only [ipv6_forward]
  by_cases hb : cfg.multinic = true ∧ fwd.id ≠ dev.id
  · rw [if_pos hb] at hconv ⊢
    simp only [forwardCross,
      conversion_unsupported cfg st.d_len fwd.lltype proto st.stats hconv ht hu]
    rw [if_pos (by norm_num [OK])]
    exact ⟨rfl, rfl, by simp [hst], rfl, rfl⟩
  · rw [if_neg hb] at hconv ⊢
    simp only [forwardSame, hsix, if_true,
      conversion_unsupported cfg st.d_len dev.lltype proto st.stats hconv ht hu]
    rw [if_neg (by norm_num [OK])]
    exact ⟨rfl, rfl, by simp [hst], rfl, rfl⟩

/-- C6 witness: the transcoding-drop theorem applied to an ICMPv6 packet
received on an Ethernet-style ingress device (lltype 0) and routed
cross-interface to a distinct IEEE 802.15.4 egress device (lltype 4). -/
theorem c6_witness :
    conversionApplies cfgFull stC6.d_len 4 = true ∧
    ((ipv6_forward cfgFull 4 32 ⟨0, 0⟩ pktA IP_PROTO_ICMP6 (some ⟨1, 4⟩) stC6).ret = OK ∧
     (ipv6_forward cfgFull 4 32 ⟨0, 0⟩ pktA IP_PROTO_ICMP6 (some ⟨1, 4⟩) stC6).d_len = 0 ∧
     (ipv6_forward cfgFull 4 32 ⟨0, 0⟩ pktA IP_PROTO_ICMP6 (some ⟨1, 4⟩) stC6).stats.ipv6Drop =
       stC6.stats.ipv6Drop + 1 ∧
     (ipv6_forward cfgFull 4 32 ⟨0, 0⟩ pktA IP_PROTO_ICMP6 (some ⟨1, 4⟩) stC6).iobs =
       stC6.iobs ∧
     (ipv6_forward cfgFull 4 32 ⟨0, 0⟩ pktA IP_PROTO_ICMP6 (some ⟨1, 4⟩) stC6).trace = []) :=
  ⟨by decide,
   c6_transcode_unsupported_proto cfgFull 4 32 ⟨0, 0⟩ ⟨1, 4⟩ pktA IP_PROTO_ICMP6 stC6
     rfl rfl (by decide) (by decide) (by decide)⟩

/-! Claim C7. -/

/-- C7 counterexample: in the single-interface configuration, for a UDP
packet whose destination matches the only interface and whose link
technology (Ethernet-style, lltype 0) needs no transcoding, ipv6_forward
returns -ENOSYS, not the success with unchanged receive length the claim
states. -/
theorem c7_cex_passthrough_returns_enosys :
    (ipv6_forward cfgSingle 4 32 ⟨0, 0⟩ pktA IP_PROTO_UDP (some ⟨0, 0⟩) stC7).ret =
      -ENOSYS ∧
    (ipv6_forward cfgSingle 4 32 ⟨0, 0⟩ pktA IP_PROTO_UDP (some ⟨0, 0⟩) stC7).ret ≠
      OK := by
  decide

/-- C7 (amended): in a single-interface configuration, for every packet
whose destination resolves to the only interface and whose link
technology requires no transcoding (the Link Adaptation Hook does not
apply), ipv6_forward returns -ENOSYS — the generic same-interface
passthrough is an acknowledged unimplemented gap — while leaving the
receive length, the drop counters and the IOB pool unchanged. -/
theorem c7_single_iface_no_transcode (cfg : Config) (ptrSize uintBits : Nat)
    (dev : Device) (pkt : Nat → Nat) (proto : Nat) (st : FwdState)
    (hm : cfg.multinic = false) (hsix : cfg.sixlowpan = true)
    (hc : conversionApplies cfg st.d_len dev.lltype = false) :
    ipv6_forward cfg ptrSize uintBits dev pkt proto (some dev) st =
      ⟨-ENOSYS, st.d_len, st.stats, st.iobs, []⟩ := by
  simp only [ipv6_forward]
  rw [if_neg (by simp [hm])]
  exact forwardSame_convfail cfg dev proto st hsix hc

/-- C7 witness: the amended passthrough-gap theorem applied at the
concrete single-interface fixture. -/
theorem c7_witness :
    conversionApplies cfgSingle stC7.d_len 0 = false ∧
    ipv6_forward cfgSingle 4 32 ⟨0, 0⟩ pktA IP_PROTO_UDP (some ⟨0, 0⟩) stC7 =
      ⟨-ENOSYS, stC7.d_len, stC7.stats, stC7.iobs, []⟩ :=
  ⟨by decide,
   c7_single_iface_no_transcode cfgSingle 4 32 ⟨0, 0⟩ pktA IP_PROTO_UDP stC7
     rfl rfl (by decide)⟩

/-! Claim C8. -/

/-- C8: for every cross-interface attempt (link adaptation not
applicable) whose classified header size equals the whole receive
length, the payload size d_len - hdrsize is zero, the Buffer Stager
performs no allocation and no copy and yields a valid empty chain (not
an error), and the forwarding path receives the null chain (chain length
0). -/
theorem c8_zero_payload_null_chain (cfg : Config) (ptrSize uintBits : Nat)
    (dev fwd : Device) (pkt : Nat → Nat) (proto : Nat) (st : FwdState)
    (hm : cfg.multinic = true) (hne : fwd.id ≠ dev.id)
    (hc : conversionApplies cfg st.d_len fwd.lltype = false)
    (hh : ipv6_hdrsize cfg ptrSize pkt proto = (st.d_len : Int)) :
    paysizeOf cfg ptrSize uintBits pkt proto st.d_len = 0 ∧
    (ipv6_forward cfg ptrSize uintBits dev pkt proto (some fwd) st).trace.filter
      isTryalloc = [] ∧
    (ipv6_forward cfg ptrSize uintBits dev pkt proto (some fwd) st).trace.filter
      isTrycopyin = [] ∧
    (Ev.evTcpForward 0 ∈
       (ipv6_forward cfg ptrSize uintBits dev pkt proto (some fwd) st).trace ∨
     Ev.evDevForward 0 ∈
       (ipv6_forward cfg ptrSize uintBits dev pkt proto (some fwd) st).trace) ∧
    stagePayload st.iobs 0 = (true, st.iobs, 0, []) := by
  have hh0 : 0 ≤ ipv6_hdrsize cfg ptrSize pkt proto := by
    rw [hh]
    exact Int.ofNat_nonneg _
  have hps : paysizeOf cfg ptrSize uintBits pkt proto st.d_len = 0 := by
    simp [paysizeOf, hh]
  have hsp : stagePayload st.iobs 0 = (true, st.iobs, 0, []) := rfl
  have hfc := forwardCross_stage_drop cfg ptrSize uintBits fwd pkt proto st hc hh0
  simp only [ipv6_forward]
  rw [if_pos ⟨hm, hne⟩, hfc, hps, hsp]
  refine ⟨rfl, ?_, ?_, ?_, rfl⟩
  · by_cases hproto : proto = IP_PROTO_TCP
    · simp only [forwardDispatch]
      rw [if_pos hproto]
      rfl
    · simp only [forwardDispatch]
      rw [if_neg hproto]
      rfl
  · by_cases hproto : proto = IP_PROTO_TCP
    · simp only [forwardDispatch]
      rw [if_pos hproto]
      rfl
    · simp only [forwardDispatch]
      rw [if_neg hproto]
      rfl
  · by_cases hproto : proto = IP_PROTO_TCP
    · left
      simp only [forwardDispatch]
      rw [if_pos hproto]
      simp
    · right
      simp only [forwardDispatch]
      rw [if_neg hproto]
      simp

/-- C8 witness: a UDP frame of receive length exactly the 48-byte header
size is dispatched with a null chain, no allocation attempted. -/
theorem c8_witness :
    ipv6_hdrsize cfgFull 4 pktA IP_PROTO_UDP = (stC8.d_len : Int) ∧
    (paysizeOf cfgFull 4 32 pktA IP_PROTO_UDP stC8.d_len = 0 ∧
     (ipv6_forward cfgFull 4 32 ⟨0, 0⟩ pktA IP_PROTO_UDP (some ⟨1, 0⟩) stC8).trace.filter
       isTryalloc = [] ∧
     (ipv6_forward cfgFull 4 32 ⟨0, 0⟩ pktA IP_PROTO_UDP (some ⟨1, 0⟩) stC8).trace.filter
       isTrycopyin = [] ∧
     (Ev.evTcpForward 0 ∈
        (ipv6_forward cfgFull 4 32 ⟨0, 0⟩ pktA IP_PROTO_UDP (some ⟨1, 0⟩) stC8).trace ∨
      Ev.evDevForward 0 ∈
        (ipv6_forward cfgFull 4 32 ⟨0, 0⟩ pktA IP_PROTO_UDP (some ⟨1, 0⟩) stC8).trace) ∧
     stagePayload stC8.iobs 0 = (true, stC8.iobs, 0, [])) :=
  ⟨by decide,
   c8_zero_payload_null_chain cfgFull 4 32 ⟨0, 0⟩ ⟨1, 0⟩ pktA IP_PROTO_UDP stC8
     rfl (by decide) (by decide) (by decide)⟩

/-! Claim C9. -/

/-- C9: whenever a cross-interface attempt passes the Link Adaptation
Hook without it applying, whatever failure occurs downstream — an
unsupported protocol in the classifier (-EPROTONOSUPPORT inside), an
exhausted pool on allocation or copy-in (-ENOMEM inside), or the
forwarding-path failure — the value ipv6_forward returns is always
-ENOSYS; the distinct underlying errno never reaches the caller. -/
theorem c9_cross_failures_masked_to_enosys (cfg : Config)
    (ptrSize uintBits : Nat) (dev fwd : Device) (pkt : Nat → Nat)
    (proto : Nat) (st : FwdState)
    (hm : cfg.multinic = true) (hne : fwd.id ≠ dev.id)
    (hc : conversionApplies cfg st.d_len fwd.lltype = false) :
    (ipv6_forward cfg ptrSize uintBits dev pkt proto (some fwd) st).ret =
      -ENOSYS := by
  simp only [ipv6_forward]
  rw [if_pos ⟨hm, hne⟩]
  exact (forwardCross_convfail cfg ptrSize uintBits fwd pkt proto st hc).1

/-- C9 witness: a frame whose protocol the classifier rejects still
comes back as -ENOSYS, not -EPROTONOSUPPORT. -/
theorem c9_witness :
    conversionApplies cfgFull stC9.d_len 0 = false ∧
    (ipv6_forward cfgFull 4 32 ⟨0, 0⟩ pktA 99 (some ⟨1, 0⟩) stC9).ret = -ENOSYS :=
  ⟨by decide,
   c9_cross_failures_masked_to_enosys cfgFull 4 32 ⟨0, 0⟩ ⟨1, 0⟩ pktA 99 stC9
     rfl (by decide) (by decide)⟩

/-! Claim C10. -/

/-- C10: truncated frame: in every cross-interface attempt in which the
classifier returns a header size exceeding the receive length, the
payload size is computed by the C unsigned subtraction and wraps mod
2 ^ uintBits to the large value 2 ^ uintBits + d_len - hdrsize; no
check rejects the frame before the copy: with a free IOB the head
allocation is attempted and succeeds and the copy-in is attempted with
exactly that wrapped size. -/
theorem c10_truncated_frame_wraps (cfg : Config) (ptrSize uintBits : Nat)
    (dev fwd : Device) (pkt : Nat → Nat) (proto : Nat) (st : FwdState)
    (hm : cfg.multinic = true) (hne : fwd.id ≠ dev.id)
    (hc : conversionApplies cfg st.d_len fwd.lltype = false)
    (hh : 0 ≤ ipv6_hdrsize cfg ptrSize pkt proto)
    (htr : (st.d_len : Int) < ipv6_hdrsize cfg ptrSize pkt proto)
    (hbound : ipv6_hdrsize cfg ptrSize pkt proto - (st.d_len : Int) <
      (2 : Int) ^ uintBits)
    (ha : 0 < st.iobs.avail) :
    paysizeOf cfg ptrSize uintBits pkt proto st.d_len =
      ((2 : Int) ^ uintBits + (st.d_len : Int) -
        ipv6_hdrsize cfg ptrSize pkt proto).toNat ∧
    0 < paysizeOf cfg ptrSize uintBits pkt proto st.d_len ∧
    Ev.evTryalloc true ∈
      (ipv6_forward cfg ptrSize uintBits dev pkt proto (some fwd) st).trace ∧
    (ipv6_forward cfg ptrSize uintBits dev pkt proto (some fwd) st).trace.filter
      (isTrycopyinOf (paysizeOf cfg ptrSize uintBits pkt proto st.d_len)) ≠ [] := by
  have hpow : (0 : Int) < (2 : Int) ^ uintBits := pow_pos (by norm_num) uintBits
  have hemod : ((st.d_len : Int) - ipv6_hdrsize cfg ptrSize pkt proto) %
      ((2 : Int) ^ uintBits) =
      (st.d_len : Int) - ipv6_hdrsize cfg ptrSize pkt proto +
        (2 : Int) ^ uintBits :=
    int_emod_neg _ _ hpow (by omega) (by omega)
  have hps : paysizeOf cfg ptrSize uintBits pkt proto st.d_len =
      ((2 : Int) ^ uintBits + (st.d_len : Int) -
        ipv6_hdrsize cfg ptrSize pkt proto).toNat := by
    simp only [paysizeOf, hemod]
    congr 1
    ring
  have hp : 0 < paysizeOf cfg ptrSize uintBits pkt proto st.d_len := by
    rw [hps]
    omega
  obtain ⟨b, st2, cl, hsp⟩ := stage_attempt st.iobs
    (paysizeOf cfg ptrSize uintBits pkt proto st.d_len) hp ha
  have hfc := forwardCross_stage_drop cfg ptrSize uintBits fwd pkt proto st hc hh
  refine ⟨hps, hp, ?_, ?_⟩
  · simp only [ipv6_forward]
    rw [if_pos ⟨hm, hne⟩, hfc, hsp]
    simp
  · simp only [ipv6_forward]
    rw [if_pos ⟨hm, hne⟩, hfc, hsp]
    refine List.ne_nil_of_mem
      (a := Ev.evTrycopyin (paysizeOf cfg ptrSize uintBits pkt proto st.d_len) b) ?_
    refine List.mem_filter.mpr ⟨?_, ?_⟩
    · simp
    · simp [isTrycopyinOf]

/-- C10 witness: a truncated UDP frame of receive length 40 against the
48-byte header size, with 32-bit unsigned int, wraps to payload size
2 ^ 32 - 8 and the copy is attempted with that size. -/
theorem c10_witness :
    (stC10.d_len : Int) < ipv6_hdrsize cfgFull 4 pktA IP_PROTO_UDP ∧
    (paysizeOf cfgFull 4 32 pktA IP_PROTO_UDP stC10.d_len =
       ((2 : Int) ^ 32 + (stC10.d_len : Int) -
         ipv6_hdrsize cfgFull 4 pktA IP_PROTO_UDP).toNat ∧
     0 < paysizeOf cfgFull 4 32 pktA IP_PROTO_UDP stC10.d_len ∧
     Ev.evTryalloc true ∈
       (ipv6_forward cfgFull 4 32 ⟨0, 0⟩ pktA IP_PROTO_UDP (some ⟨1, 0⟩) stC10).trace ∧
     (ipv6_forward cfgFull 4 32 ⟨0, 0⟩ pktA IP_PROTO_UDP (some ⟨1, 0⟩) stC10).trace.filter
       (isTrycopyinOf (paysizeOf cfgFull 4 32 pktA IP_PROTO_UDP stC10.d_len)) ≠ []) :=
  ⟨by decide,
   c10_truncated_frame_wraps cfgFull 4 32 ⟨0, 0⟩ ⟨1, 0⟩ pktA IP_PROTO_UDP stC10
     rfl (by decide) (by decide) (by decide) (by decide) (by decide) (by decide)⟩

end Ipv6Fwd
